import Mathlib

/-!
Verification development for the Timeline Composition Engine of
`src/video.py` (repository `create-video`).

The Python source is shallowly embedded as executable Lean definitions:

* 8-bit RGB pixels are triples of naturals; PIL images are lists of rows
  of pixels.
* numpy float frames used during transition blending are lists of rows of
  rational triples (exact rationals stand in for IEEE doubles; the claims
  checked here are insensitive to sub-ulp float rounding).
* audio clips are lists of rational samples, one sample per time unit, so
  a clip duration is its list length.
* fallible operations return `Except`; Python dictionaries keyed by
  strings become association lists with `List.lookup`.
-/

/-- RGB pixel with 8-bit channels (values 0..255). -/
abbrev Pixel : Type := ℕ × ℕ × ℕ

/-- PIL image: rows of pixels. -/
abbrev Image : Type := List (List Pixel)

/-- numpy float pixel used while blending transition frames. -/
abbrev FPixel : Type := ℚ × ℚ × ℚ

/-- numpy float frame: rows of float pixels. -/
abbrev Frame : Type := List (List FPixel)

/-- Embedding of `apply_sepia` (src/video.py lines 26-30) on one pixel:
`tr = int(0.393*r + 0.769*g + 0.189*b)` and similarly for `tg`, `tb`,
then `min` with 255 on each channel.  Since the inputs are nonnegative
and the weights positive, Python `int` truncation equals the floor of the
exact rational value, i.e. natural division of the `1000`-scaled integer
weights; no lower clamp exists in the source and none is needed since
the weighted sums are nonnegative. -/
def sepiaPixel (p : Pixel) : Pixel :=
  let tr := (393 * p.1 + 769 * p.2.1 + 189 * p.2.2) / 1000
  let tg := (349 * p.1 + 686 * p.2.1 + 168 * p.2.2) / 1000
  let tb := (272 * p.1 + 534 * p.2.1 + 131 * p.2.2) / 1000
  (min tr 255, min tg 255, min tb 255)

/-- Embedding of `apply_sepia` (src/video.py lines 21-31): the double
loop over `x`, `y` rewrites every pixel of the image through
`sepiaPixel`.  Note the source writes `pixels[x, y] = ...` on the image
obtained from `img.load()`, i.e. it mutates the input image in place and
returns that same object; this value is therefore both the returned
image and the post-call contents of the argument object. -/
def apply_sepia (img : Image) : Image :=
  img.map (fun row => row.map sepiaPixel)

/-- Embedding of the `IMAGE_FILTERS` dictionary (src/video.py lines
87-94).  The PIL library calls behind `grayscale`, `blur`, `sharpen` and
`edge_enhance` (`convert`, `filter`) return fresh images and are passed
in as parameters `gray`, `blur`, `sharpen`, `edge`; each dictionary
value is modelled as a function returning the pair (returned working
image, contents of the source image object after the call).  Only
`sepia` mutates its argument (see `apply_sepia`); `none` returns the
source object itself, unmodified. -/
def IMAGE_FILTERS (gray blur sharpen edge : Image → Image) :
    List (String × (Image → Image × Image)) :=
  [("none", fun img => (img, img)),
   ("grayscale", fun img => (gray img, img)),
   ("sepia", fun img => (apply_sepia img, apply_sepia img)),
   ("blur", fun img => (blur img, img)),
   ("sharpen", fun img => (sharpen img, img)),
   ("edge_enhance", fun img => (edge img, img))]

/-- Keys of `IMAGE_FILTERS`. -/
def IMAGE_FILTER_KEYS : List String :=
  ["none", "grayscale", "sepia", "blur", "sharpen", "edge_enhance"]

/-- Embedding of `IMAGE_FILTERS[image_filter](img)` (src/video.py line
230): a hard dictionary lookup, so an unsupported key raises `KeyError`
(no `.get` with a default is used for filters).  The result pair is
(returned working image, source object contents after the call). -/
def applyImageFilter (gray blur sharpen edge : Image → Image)
    (k : String) (img : Image) : Except String (Image × Image) :=
  match (IMAGE_FILTERS gray blur sharpen edge).lookup k with
  | some f => .ok (f img)
  | none => .error ("KeyError: " ++ k)

/-- Tags for the five transition builders of `TRANSITION_EFFECTS`
(src/video.py lines 79-85). -/
inductive TransitionKind : Type
  | fade
  | slide_left
  | slide_right
  | zoom
  | rotate
deriving DecidableEq

/-- Embedding of the `TRANSITION_EFFECTS` dictionary (src/video.py lines
79-85), reduced to its key structure: each entry maps a name to the tag
of the transition builder stored there. -/
def TRANSITION_EFFECTS : List (String × TransitionKind) :=
  [("fade", .fade),
   ("slide_left", .slide_left),
   ("slide_right", .slide_right),
   ("zoom", .zoom),
   ("rotate", .rotate)]

/-- Embedding of
`TRANSITION_EFFECTS.get(transition_effect, TRANSITION_EFFECTS['fade'])`
(src/video.py line 256): a dictionary lookup whose default, used for any
unrecognized key, is the `fade` entry. -/
def selectTransition (k : String) : TransitionKind :=
  (TRANSITION_EFFECTS.lookup k).getD .fade

/-- Elementwise scaling of a float frame by a scalar, as in the numpy
expressions `frame1 * (1-zoom)` and `frame2 * zoom` (src/video.py line
55). -/
def scaleFrame (A : Frame) (c : ℚ) : Frame :=
  A.map (fun row => row.map (fun p => (p.1 * c, p.2.1 * c, p.2.2 * c)))

/-- Elementwise sum of two float frames, as in the numpy `+` of
src/video.py line 55 (the source arrays always have equal shape there;
`zipWith` realises the elementwise operation). -/
def addFrame (A B : Frame) : Frame :=
  List.zipWith
    (fun ra rb =>
      List.zipWith (fun p q => (p.1 + q.1, p.2.1 + q.2.1, p.2.2 + q.2.2)) ra rb)
    A B

/-- Embedding of the frame function of `zoom_transition` (src/video.py
lines 49-57): `merged = frame1 * (1-zoom) + frame2 * zoom` with
`zoom = t`, where `frame1`, `frame2` are the first frames of the two
clips, i.e. the two stills `A` and `B`. -/
def zoom_transition_frame (A B : Frame) (t : ℚ) : Frame :=
  addFrame (scaleFrame A (1 - t)) (scaleFrame B t)

/-- Embedding of the composited frame of the `fade` entry,
`clip1.crossfadeout(1).crossfadein(1)` (src/video.py line 80).  The two
crossfade effects only install a linear alpha mask on `clip1` (ramp 0
to 1 over the first second, 1 down to 0 over the last second of the
clip, whose duration is `d`); under `concatenate_videoclips(...,
method="compose")` the clip is composited over the black background, so
the visible frame at local time `tau` is `clip1`s still scaled by
`min 1 tau * min 1 (d - tau)`.  The second still is never read: the
lambda discards `clip2`.  Here `t` is the normalized progress over the
clip, so `tau = t * d`. -/
def fade_transition_frame (A _B : Frame) (d t : ℚ) : Frame :=
  scaleFrame A (min 1 (t * d) * min 1 (d - t * d))

/-- Same resolution predicate for two float frames: equal row counts and
equal length of corresponding rows. -/
def sameRes (A B : Frame) : Prop :=
  A.length = B.length ∧ ∀ r < A.length, (A.getD r []).length = (B.getD r []).length

instance (A B : Frame) : Decidable (sameRes A B) := by
  unfold sameRes; infer_instance

/-- Definition written from the words of the specification table in
section 4.3: a straight alpha cross-dissolve, `frame = A*(1-t) + B*t`
taken pointwise over the pixel grid of `A`.  It is compared with the
source-derived `zoom_transition_frame` in the claims below. -/
def specCrossDissolve (A B : Frame) (t : ℚ) : Frame :=
  (List.range A.length).map fun r =>
    (List.range (A.getD r []).length).map fun c =>
      let p := (A.getD r []).getD c (0, 0, 0)
      let q := (B.getD r []).getD c (0, 0, 0)
      (p.1 * (1 - t) + q.1 * t, p.2.1 * (1 - t) + q.2.1 * t,
        p.2.2 * (1 - t) + q.2.2 * t)

/-- Embedding of the duration reconciliation step of
`create_video_with_effects` (src/video.py lines 273-276):
if `final_audio.duration > final_clip.duration` the clip is looped to
the audio duration, else the audio is looped to the clip duration
(`loop(duration=x)` yields a clip of duration exactly `x`).  Arguments
are the audio and video durations before reconciliation; the result is
(final audio duration, adjusted video duration). -/
def reconcile (final_audio_duration final_clip_duration : ℚ) : ℚ × ℚ :=
  if final_audio_duration > final_clip_duration then
    (final_audio_duration, final_audio_duration)
  else
    (final_clip_duration, final_clip_duration)

/-- Audio clip: list of samples, one per time unit, so the clip duration
equals the list length. -/
abbrev AudioTrack : Type := List ℚ

/-- Embedding of `bg_music.loop(duration=...)` (src/video.py line 73):
the clip repeated cyclically and cut to duration exactly `n`.  Sample
`i` of the result is sample `i mod length` of the source. -/
def loopTo (xs : AudioTrack) (n : ℕ) : AudioTrack :=
  (List.range n).map (fun i => xs.getD (i % xs.length) 0)

/-- Embedding of `bg_music.volumex(bg_volume)` (src/video.py line 74):
every sample multiplied by the factor, with no clamping of the factor. -/
def volumex (xs : AudioTrack) (v : ℚ) : AudioTrack :=
  xs.map (fun s => s * v)

/-- Embedding of `CompositeAudioClip([main_audio, bg_music])`
(src/video.py line 75): samplewise sum of the two clips (which have
equal duration at that point). -/
def compositeAudio (a b : AudioTrack) : AudioTrack :=
  List.zipWith (fun x y => x + y) a b

/-- Embedding of `mix_audio` (src/video.py lines 69-76): if the
background clip is longer than the main clip it is cut with
`subclip(0, main.duration)` (`List.take`), else it is loop-repeated to
the main duration; its samples are then scaled by `bg_volume` (as
given, unclamped) and summed with the main clip. -/
def mix_audio (main_audio bg_music : AudioTrack) (bg_volume : ℚ) : AudioTrack :=
  let bg :=
    if bg_music.length > main_audio.length then bg_music.take main_audio.length
    else loopTo bg_music main_audio.length
  compositeAudio main_audio (volumex bg bg_volume)

/-- Embedding of src/video.py lines 267-271: with a background-music
path present the final audio is `mix_audio main bg volume`, otherwise
it is the main (narration) audio unchanged. -/
def finalAudioOf (main : AudioTrack) (bg : Option AudioTrack) (v : ℚ) : AudioTrack :=
  match bg with
  | some b => mix_audio main b v
  | none => main

/-- Definition written from the words of specification section 4.5: the
same mixing policy but with the background volume clamped to the unit
interval before scaling.  Compared against the source-derived
`mix_audio` in the claims below. -/
def specMixAudioClamped (main_audio bg_music : AudioTrack) (bg_volume : ℚ) : AudioTrack :=
  let bg :=
    if bg_music.length > main_audio.length then bg_music.take main_audio.length
    else loopTo bg_music main_audio.length
  compositeAudio main_audio (volumex bg (min 1 (max 0 bg_volume)))

/-- Failure modes of `create_video_with_effects` before rendering.
`emptyInput` is the `ValueError("No images provided for video
creation")` of src/video.py line 225; `noValidSlides` is the
`IndexError` raised by `image_clips[-1]` (line 262) when every image
was dropped by the per-item handler.  Both are re-wrapped at lines
284-286 into a generic exception but remain distinguishable by their
message. -/
inductive VideoError : Type
  | emptyInput
  | noValidSlides
deriving DecidableEq

/-- Elements of the assembled clip sequence: a still clip or a
transition clip built from two adjacent stills. -/
inductive TimelineItem (α : Type) : Type
  | slide (c : α)
  | trans (a b : α)
deriving DecidableEq

/-- Embedding of the assembly loop of src/video.py lines 255-262: for
each `i` in `range(len(image_clips)-1)` append clip `i` and the
transition built from clips `i` and `i+1`, then append
`image_clips[-1]`.  `clips` is nonempty whenever this runs (the guard
is in `buildTimeline`); the `getD` defaults are never reached for
indices produced by `range`. -/
def clips_with_transitions {α : Type} [Inhabited α] (clips : List α) :
    List (TimelineItem α) :=
  ((List.range (clips.length - 1)).flatMap fun i =>
      [TimelineItem.slide (clips.getD i default),
       TimelineItem.trans (clips.getD i default) (clips.getD (i + 1) default)])
    ++ [TimelineItem.slide (clips.getLast?.getD default)]

/-- Embedding of the slide-preparation and assembly phases of
`create_video_with_effects` (src/video.py lines 224-262).  The guard
`if not images` raises the empty-input error first (line 224-225); the
per-image loop applies filter, overlay and save inside a
`try/except` that logs a warning and `continue`s, so each image either
yields a clip or is dropped — abstracted as `process : α → Option α`
and realised by `filterMap`.  If every image was dropped the subsequent
`image_clips[-1]` raises (modelled as `noValidSlides`); otherwise the
interleaved clip list is built. -/
def buildTimeline {α : Type} [Inhabited α] (images : List α)
    (process : α → Option α) : Except VideoError (List (TimelineItem α)) :=
  if images.isEmpty then .error .emptyInput
  else
    let image_clips := images.filterMap process
    if image_clips.isEmpty then .error .noValidSlides
    else .ok (clips_with_transitions image_clips)

/-- Definition written from the shape described in specification
sections 3 and 4.4: the alternating sequence Slide, Transition, Slide,
..., Slide with a transition between every consecutive pair of slides.
Compared against the source-derived `clips_with_transitions` in the
claims below. -/
def timelineSpecShape {α : Type} : List α → List (TimelineItem α)
  | [] => []
  | [a] => [TimelineItem.slide a]
  | a :: b :: rest =>
      TimelineItem.slide a :: TimelineItem.trans a b :: timelineSpecShape (b :: rest)

/-- Number of slide items in an assembled sequence. -/
def countSlides {α : Type} (l : List (TimelineItem α)) : ℕ :=
  l.countP (fun i => match i with | .slide _ => true | _ => false)

/-- Number of transition items in an assembled sequence. -/
def countTrans {α : Type} (l : List (TimelineItem α)) : ℕ :=
  l.countP (fun i => match i with | .trans _ _ => true | _ => false)

/-- Pieces of a text-overlay template as parsed by Python
`str.format`: literal text, the `slide_number` replacement field, or a
replacement field with any other name. -/
inductive TemplatePart : Type
  | lit (s : String)
  | slideNumber
  | other (name : String)
deriving DecidableEq

/-- Template: the parsed sequence of its pieces. -/
abbrev Template : Type := List TemplatePart

/-- Formatting of one template piece by
`text_overlay.format(slide_number=i+1)` (src/video.py line 238): a
literal passes through, every `slide_number` field is replaced by the
supplied number, and any other field name raises `KeyError`. -/
def formatPart (n : ℕ) : TemplatePart → Except String String
  | .lit s => .ok s
  | .slideNumber => .ok (toString n)
  | .other name => .error ("KeyError: " ++ name)

/-- Formatting of a whole template left to right, failing at the first
unknown replacement field, exactly as `str.format` does.  Note the
source applies no well-formedness check of its own: a template with
zero or several `slide_number` fields formats without error. -/
def formatParts (n : ℕ) : Template → Except String String
  | [] => .ok ""
  | p :: rest =>
      match formatPart n p with
      | .error e => .error e
      | .ok s =>
          match formatParts n rest with
          | .error e => .error e
          | .ok r => .ok (s ++ r)

/-- Concatenation of a template with every `slide_number` field replaced
by the given number: the value `formatParts` returns when no unknown
replacement field occurs. -/
def substAll (n : ℕ) : Template → String
  | [] => ""
  | TemplatePart.lit s :: rest => s ++ substAll n rest
  | TemplatePart.slideNumber :: rest => toString n ++ substAll n rest
  | TemplatePart.other _ :: rest => substAll n rest

/-- Geometry and paint of one rendered overlay, as passed to
`draw.text` in src/video.py lines 240-245. -/
structure OverlayRender : Type where
  text : String
  x : ℚ
  y : ℚ
  fill : String
  strokeWidth : ℕ
  strokeFill : String
deriving DecidableEq

/-- Embedding of the overlay step of src/video.py lines 232-245 for
slide index `i` (0-based loop index; the substituted number is the
1-based `i+1`).  `textWidth` abstracts `draw.textlength(text, font)`.
The draw call anchors the text at
`((img.width - w)/2, img.height - 100)` in white fill with a 2 px
black stroke. -/
def renderOverlay (textWidth : String → ℚ) (imgW imgH : ℚ)
    (tmpl : Template) (i : ℕ) : Except String OverlayRender :=
  match formatParts (i + 1) tmpl with
  | .error e => .error e
  | .ok text =>
      .ok { text := text
            x := (imgW - textWidth text) / 2
            y := imgH - 100
            fill := "white"
            strokeWidth := 2
            strokeFill := "black" }

/-- C2: for every audio/video duration pair, the reconciliation step of
`create_video_with_effects` returns a final audio duration at least the
input video duration and an adjusted video duration at least the
original, never truncating either below its pre-reconciliation length;
when the two durations are equal neither is adjusted. -/
theorem reconcile_never_truncates (a v : ℚ) :
    v ≤ (reconcile a v).1 ∧ v ≤ (reconcile a v).2 ∧
    a ≤ (reconcile a v).1 ∧ a ≤ (reconcile a v).2 ∧
    (a = v → reconcile a v = (a, v)) := by
  by_cases h : a > v
  · simp only [reconcile, if_pos h]
    exact ⟨le_of_lt h, le_of_lt h, le_refl a, le_refl a,
      fun hv => by rw [hv]⟩
  · simp only [reconcile, if_neg h]
    exact ⟨le_refl v, le_refl v, not_lt.mp h, not_lt.mp h,
      fun hv => by rw [hv]⟩

/-- Witness for `reconcile_never_truncates`: with equal durations 4 and
4 the reconciliation step adjusts neither duration. -/
theorem reconcile_never_truncates_witness : reconcile 4 4 = (4, 4) :=
  (reconcile_never_truncates 4 4).2.2.2.2 rfl

/-- C7 counterexample: the claim predicts that a pure-gray pixel maps to
the 1.351-scaled value on every channel; at v = 100 the code scales the
red channel by 1.351 (value 135) but produces 120 on green and 93 on
blue, so the output is not the claimed uniform triple. -/
theorem sepia_gray_not_uniform :
    sepiaPixel (100, 100, 100) = (135, 120, 93) ∧
    min (1351 * 100 / 1000) 255 = 135 ∧
    sepiaPixel (100, 100, 100) ≠
      (min (1351 * 100 / 1000) 255, min (1351 * 100 / 1000) 255,
        min (1351 * 100 / 1000) 255) := by
  decide

/-- C7 amended: applying the sepia transform twice never produces a
channel value outside [0, 255] (channels are naturals, so only the
upper bound is at stake and it is enforced by the `min` with 255), and
a pure-gray pixel (r = g = b = v) maps to per-channel scalings by
1.351, 1.203 and 0.937 respectively — not by 1.351 on every channel —
with the red channel clamped to 255 exactly when v > 188. -/
theorem sepia_bounds_and_gray (p : Pixel) (v : ℕ) :
    (sepiaPixel (sepiaPixel p)).1 ≤ 255 ∧
    (sepiaPixel (sepiaPixel p)).2.1 ≤ 255 ∧
    (sepiaPixel (sepiaPixel p)).2.2 ≤ 255 ∧
    sepiaPixel (v, v, v) =
      (min (1351 * v / 1000) 255, min (1203 * v / 1000) 255,
        min (937 * v / 1000) 255) ∧
    (min (1351 * v / 1000) 255 = 255 ↔ 188 < v) := by
  refine ⟨Nat.min_le_right _ _, Nat.min_le_right _ _, Nat.min_le_right _ _, ?_, ?_⟩
  · have h1 : 393 * v + 769 * v + 189 * v = 1351 * v := by ring
    have h2 : 349 * v + 686 * v + 168 * v = 1203 * v := by ring
    have h3 : 272 * v + 534 * v + 131 * v = 937 * v := by ring
    simp only [sepiaPixel, h1, h2, h3]
  · rw [min_eq_right_iff, Nat.le_div_iff_mul_le (by norm_num)]
    omega

/-- C6: looking up an unsupported filter kind in `IMAGE_FILTERS` raises
`KeyError` (the source indexes the dictionary directly, with no
default), and every supported kind succeeds; the lookup is the only
failure point of the filter application. -/
theorem filter_unknown_key_fails (gray blur sharpen edge : Image → Image)
    (k : String) (img : Image) :
    (k ∉ IMAGE_FILTER_KEYS →
      applyImageFilter gray blur sharpen edge k img =
        .error ("KeyError: " ++ k)) ∧
    (k ∈ IMAGE_FILTER_KEYS →
      ∃ out, applyImageFilter gray blur sharpen edge k img = .ok out) := by
  constructor
  · intro h
    simp only [IMAGE_FILTER_KEYS, List.mem_cons, List.not_mem_nil, or_false,
      not_or] at h
    obtain ⟨h1, h2, h3, h4, h5, h6⟩ := h
    have b1 : (k == "none") = false := beq_eq_false_iff_ne.mpr h1
    have b2 : (k == "grayscale") = false := beq_eq_false_iff_ne.mpr h2
    have b3 : (k == "sepia") = false := beq_eq_false_iff_ne.mpr h3
    have b4 : (k == "blur") = false := beq_eq_false_iff_ne.mpr h4
    have b5 : (k == "sharpen") = false := beq_eq_false_iff_ne.mpr h5
    have b6 : (k == "edge_enhance") = false := beq_eq_false_iff_ne.mpr h6
    simp [applyImageFilter, IMAGE_FILTERS, List.lookup, b1, b2, b3, b4, b5, b6]
  · intro h
    simp only [IMAGE_FILTER_KEYS, List.mem_cons, List.not_mem_nil, or_false] at h
    rcases h with h | h | h | h | h | h <;> subst h <;> exact ⟨_, rfl⟩

/-- Witness for `filter_unknown_key_fails`: the key "wat" is not in the
filter table and its application fails with the matching KeyError. -/
theorem filter_unknown_key_fails_witness :
    applyImageFilter id id id id "wat" [[(1, 2, 3)]] =
      .error ("KeyError: " ++ "wat") :=
  (filter_unknown_key_fails id id id id "wat" [[(1, 2, 3)]]).1 (by decide)

/-- C9 counterexample: the sepia filter writes its result into the
pixels of its argument and returns that same object, so after filtering
the source image no longer holds its original pixels: on the one-pixel
image (100,100,100) the source object afterwards holds (135,120,93). -/
theorem sepia_mutates_source :
    applyImageFilter id id id id "sepia" [[(100, 100, 100)]] =
      .ok ([[(135, 120, 93)]], [[(135, 120, 93)]]) ∧
    ([[(135, 120, 93)]] : Image) ≠ [[(100, 100, 100)]] := by
  exact ⟨rfl, by decide⟩

/-- C9 amended: the filters other than sepia leave the source image
object unchanged (none returns the object itself unmodified; grayscale,
blur, sharpen and edge-enhance build fresh images through PIL), but the
sepia filter mutates the source in place: after the call the source
object holds the sepia-transformed pixels. -/
theorem filters_source_purity (gray blur sharpen edge : Image → Image)
    (img : Image) :
    (∀ k ∈ (["none", "grayscale", "blur", "sharpen", "edge_enhance"] : List String),
      (applyImageFilter gray blur sharpen edge k img).map Prod.snd = .ok img) ∧
    (applyImageFilter gray blur sharpen edge "sepia" img).map Prod.snd =
      .ok (apply_sepia img) := by
  constructor
  · intro k hk
    fin_cases hk <;> rfl
  · rfl

/-- Witness for `filters_source_purity`: the blur filter leaves the
source image contents unchanged. -/
theorem filters_source_purity_witness :
    (applyImageFilter id id id id "blur" [[(1, 2, 3)]]).map Prod.snd =
      .ok [[(1, 2, 3)]] :=
  (filters_source_purity id id id id [[(1, 2, 3)]]).1 "blur" (by decide)

/-- C10 counterexample: "sparkle" is not a key of `TRANSITION_EFFECTS`,
yet the selection of src/video.py line 256 silently substitutes the
fade entry for it. -/
theorem unknown_transition_defaults_to_fade :
    ("sparkle" ∉ TRANSITION_EFFECTS.map Prod.fst) ∧
    selectTransition "sparkle" = TransitionKind.fade := by
  exact ⟨by decide, rfl⟩

/-- C10 amended: the transition selection uses a dictionary lookup with
the fade entry as default, so every unrecognized transition kind
silently selects fade, while recognized kinds select their own entry;
this fallback is an undocumented `.get` default, not a named policy. -/
theorem transition_get_default_policy (k : String) :
    (TRANSITION_EFFECTS.lookup k = none →
      selectTransition k = TransitionKind.fade) ∧
    (∀ v, TRANSITION_EFFECTS.lookup k = some v → selectTransition k = v) := by
  constructor
  · intro h
    simp [selectTransition, h]
  · intro v h
    simp [selectTransition, h]

/-- Witness for `transition_get_default_policy`: the unrecognized kind
"sparkle" selects the fade entry. -/
theorem transition_get_default_policy_witness :
    selectTransition "sparkle" = TransitionKind.fade :=
  (transition_get_default_policy "sparkle").1 rfl

/-- C5 counterexample: the source scales the background samples by the
volume factor exactly as given, without clamping it to [0, 1]; at
volume 2 on one-sample tracks the mixed sample is 1 + 1*2 = 3, while
the clamped policy of the specification yields 1 + 1*1 = 2. -/
theorem mix_audio_no_clamp :
    mix_audio [1] [1] 2 = [3] ∧ specMixAudioClamped [1] [1] 2 = [2] ∧
    mix_audio [1] [1] 2 ≠ specMixAudioClamped [1] [1] 2 := by
  refine ⟨?_, ?_, ?_⟩
  · norm_num [mix_audio, loopTo, volumex, compositeAudio, List.range_succ]
  · norm_num [specMixAudioClamped, loopTo, volumex, compositeAudio, List.range_succ]
  · intro h
    rw [show mix_audio [1] [1] 2 = [3] by
          norm_num [mix_audio, loopTo, volumex, compositeAudio, List.range_succ],
        show specMixAudioClamped [1] [1] 2 = [2] by
          norm_num [specMixAudioClamped, loopTo, volumex, compositeAudio,
            List.range_succ]] at h
    simp at h

/-- C5 amended: with background music present, the mix has exactly the
narration duration; the background is trimmed with `subclip` when
longer than the narration and loop-repeated (sample i coming from
position i mod length) when not; each mixed sample is the narration
sample plus the matched background sample scaled by the volume factor
as given (the source applies no clamping of the factor).  With no
background music the final audio is the narration unchanged. -/
theorem mix_audio_behavior (main bg : AudioTrack) (v : ℚ) :
    (finalAudioOf main (some bg) v).length = main.length ∧
    (∀ i, i < main.length → bg ≠ [] →
      (finalAudioOf main (some bg) v).getD i 0 =
        main.getD i 0 +
          (if bg.length > main.length then bg.getD i 0
           else bg.getD (i % bg.length) 0) * v) ∧
    finalAudioOf main none v = main := by
  refine ⟨?_, ?_, rfl⟩
  · simp only [finalAudioOf, mix_audio, compositeAudio, volumex, loopTo]
    by_cases hc : bg.length > main.length
    · rw [if_pos hc]
      simp
      omega
    · rw [if_neg hc]
      simp
  · intro i hi hbg
    have hbglen : 0 < bg.length := List.length_pos.mpr hbg
    simp only [finalAudioOf]
    by_cases hc : bg.length > main.length
    · simp only [mix_audio, if_pos hc, compositeAudio, volumex]
      have h1 : i < (List.zipWith (fun x y => x + y) main
          ((bg.take main.length).map (fun s => s * v))).length := by
        simp
        omega
      rw [List.getD_eq_getElem _ _ h1, List.getElem_zipWith]
      rw [List.getD_eq_getElem _ _ hi]
      rw [List.getD_eq_getElem _ _ (by omega : i < bg.length)]
      simp [List.getElem_take]
    · simp only [mix_audio, if_neg hc, compositeAudio, volumex, loopTo]
      have h1 : i < (List.zipWith (fun x y => x + y) main
          (((List.range main.length).map
            (fun j => bg.getD (j % bg.length) 0)).map (fun s => s * v))).length := by
        simp
        omega
      rw [List.getD_eq_getElem _ _ h1, List.getElem_zipWith]
      rw [List.getD_eq_getElem _ _ hi]
      simp

/-- Witness for `mix_audio_behavior`: narration [1,2,3] with the
one-sample background [5] at volume 1/2 has its third mixed sample
equal to 3 + 5 * (1/2) via the loop-repetition position 2 mod 1 = 0. -/
theorem mix_audio_behavior_witness :
    (finalAudioOf [1, 2, 3] (some [5]) (1/2)).getD 2 0 = (11 : ℚ) / 2 := by
  have h := (mix_audio_behavior [1, 2, 3] [5] (1/2)).2.1 2 (by norm_num) (by simp)
  rw [h]
  norm_num

/-- C1 counterexample: at progress t = 1/2 over same-resolution
one-pixel stills A = (200,200,200) and B = (0,0,0), the fade entry
shows A at full alpha (its crossfade mask equals 1 away from the clip
edges and the second still is never read), while the zoom transition
blends the two stills to (100,100,100); the two frames are not
bit-identical. -/
theorem fade_zoom_not_bit_identical :
    sameRes [[((200 : ℚ), 200, 200)]] [[((0 : ℚ), 0, 0)]] ∧
    fade_transition_frame [[((200 : ℚ), 200, 200)]] [[((0 : ℚ), 0, 0)]] 5 (1/2) =
      [[((200 : ℚ), 200, 200)]] ∧
    zoom_transition_frame [[((200 : ℚ), 200, 200)]] [[((0 : ℚ), 0, 0)]] (1/2) =
      [[((100 : ℚ), 100, 100)]] ∧
    fade_transition_frame [[((200 : ℚ), 200, 200)]] [[((0 : ℚ), 0, 0)]] 5 (1/2) ≠
      zoom_transition_frame [[((200 : ℚ), 200, 200)]] [[((0 : ℚ), 0, 0)]] (1/2) := by
  have hf : fade_transition_frame [[((200 : ℚ), 200, 200)]] [[((0 : ℚ), 0, 0)]] 5 (1/2) =
      [[((200 : ℚ), 200, 200)]] := by
    norm_num [fade_transition_frame, scaleFrame]
  have hz : zoom_transition_frame [[((200 : ℚ), 200, 200)]] [[((0 : ℚ), 0, 0)]] (1/2) =
      [[((100 : ℚ), 100, 100)]] := by
    norm_num [zoom_transition_frame, scaleFrame, addFrame]
  refine ⟨⟨rfl, ?_⟩, hf, hz, ?_⟩
  · intro r hr
    have hr0 : r = 0 := by simpa [Nat.lt_one_iff] using hr
    subst hr0
    rfl
  · intro h
    rw [hf, hz] at h
    simp at h

/-- C1 amended: the zoom transition alone realises the straight alpha
cross-dissolve of the specification — on every same-resolution pair its
frame at progress t equals the pointwise blend A*(1-t) + B*t — whereas
the fade entry of `TRANSITION_EFFECTS` is built from the first clip
only and in general differs from zoom, so fade and zoom are not
bit-identical. -/
theorem zoom_is_cross_dissolve (A B : Frame) (t : ℚ) (h : sameRes A B) :
    zoom_transition_frame A B t = specCrossDissolve A B t := by
  obtain ⟨hlen, hrow⟩ := h
  apply List.ext_getElem
  · simp [zoom_transition_frame, addFrame, scaleFrame, specCrossDissolve, hlen]
  · intro r h1 h2
    have hrA : r < A.length := by
      simpa [zoom_transition_frame, addFrame, scaleFrame, hlen] using h1
    have hrB : r < B.length := hlen ▸ hrA
    have hAr : A.getD r [] = A[r] := List.getD_eq_getElem _ _ hrA
    have hBr : B.getD r [] = B[r] := List.getD_eq_getElem _ _ hrB
    have hrowr := hrow r hrA
    rw [hAr, hBr] at hrowr
    simp only [zoom_transition_frame, addFrame, scaleFrame, specCrossDissolve,
      List.getElem_zipWith, List.getElem_map, List.getElem_range, hAr, hBr]
    apply List.ext_getElem
    · simp [hrowr]
    · intro c hc1 hc2
      have hcA : c < A[r].length := by simpa [hrowr] using hc1
      have hcB : c < B[r].length := hrowr ▸ hcA
      have hAc : A[r].getD c (0, 0, 0) = A[r][c] := List.getD_eq_getElem _ _ hcA
      have hBc : B[r].getD c (0, 0, 0) = B[r][c] := List.getD_eq_getElem _ _ hcB
      simp only [List.getElem_zipWith, List.getElem_map, List.getElem_range, hAc, hBc]

/-- Witness for `zoom_is_cross_dissolve`: on a concrete same-resolution
pair the zoom frame at t = 1/2 equals the specification dissolve. -/
theorem zoom_is_cross_dissolve_witness :
    zoom_transition_frame [[((4 : ℚ), 4, 4)]] [[((8 : ℚ), 0, 0)]] (1/2) =
      specCrossDissolve [[((4 : ℚ), 4, 4)]] [[((8 : ℚ), 0, 0)]] (1/2) :=
  zoom_is_cross_dissolve [[((4 : ℚ), 4, 4)]] [[((8 : ℚ), 0, 0)]] (1/2)
    ⟨rfl, by
      intro r hr
      have hr0 : r = 0 := by simpa [Nat.lt_one_iff] using hr
      subst hr0
      rfl⟩

/-- Helper: the assembly loop of src/video.py lines 258-262 produces
exactly the alternating Slide, Transition, ..., Slide shape with a
transition between every consecutive pair of surviving clips. -/
theorem clips_with_transitions_eq_spec {α : Type} [Inhabited α] :
    ∀ (clips : List α), clips ≠ [] →
      clips_with_transitions clips = timelineSpecShape clips := by
  intro clips
  induction clips with
  | nil => intro h; exact absurd rfl h
  | cons a tl IH =>
    intro _
    cases tl with
    | nil => simp [clips_with_transitions, timelineSpecShape]
    | cons b rest =>
      have IH2 := IH (by simp)
      have hlen : (a :: b :: rest).length - 1 = rest.length + 1 := by simp
      have hrange : List.range (rest.length + 1) =
          0 :: (List.range rest.length).map Nat.succ :=
        List.range_succ_eq_map rest.length
      rw [timelineSpecShape, ← IH2]
      simp only [clips_with_transitions, hlen, hrange, List.flatMap_cons,
        List.flatMap_map, List.getD_cons_zero, List.getD_cons_succ,
        List.getLast?_cons_cons, List.length_cons, Nat.add_sub_cancel]
      simp [Function.comp, List.getD_cons_succ]

/-- Helper: the alternating shape on n clips holds exactly n slide
items and n - 1 transition items. -/
theorem timelineSpecShape_counts {α : Type} (clips : List α) :
    countSlides (timelineSpecShape clips) = clips.length ∧
    countTrans (timelineSpecShape clips) = clips.length - 1 := by
  induction clips with
  | nil => simp [timelineSpecShape, countSlides, countTrans]
  | cons a tl IH =>
    cases tl with
    | nil => simp [timelineSpecShape, countSlides, countTrans]
    | cons b rest =>
      obtain ⟨h1, h2⟩ := IH
      simp [timelineSpecShape, countSlides, countTrans, List.countP_cons] at *
      omega

/-- C3: whenever n >= 1 clips survive per-item processing, the timeline
build succeeds with the alternating Slide, Transition, ..., Slide
sequence containing exactly n slides, exactly n - 1 transitions and a
transition between every consecutive pair of slides; in particular it
does not raise the all-slides-dropped error, so one surviving still
yields one slide and zero transitions without error. -/
theorem buildTimeline_counts {α : Type} [Inhabited α] (images : List α)
    (process : α → Option α) (h : images.filterMap process ≠ []) :
    buildTimeline images process =
      .ok (timelineSpecShape (images.filterMap process)) ∧
    countSlides (timelineSpecShape (images.filterMap process)) =
      (images.filterMap process).length ∧
    countTrans (timelineSpecShape (images.filterMap process)) =
      (images.filterMap process).length - 1 ∧
    buildTimeline images process ≠ .error .noValidSlides := by
  have himg : ¬ images.isEmpty = true := by
    intro he
    rw [List.isEmpty_iff] at he
    subst he
    simp at h
  have hclips : ¬ (images.filterMap process).isEmpty = true := by
    simpa [List.isEmpty_iff] using h
  have hmain : buildTimeline images process =
      .ok (clips_with_transitions (images.filterMap process)) := by
    simp only [buildTimeline]
    rw [if_neg himg, if_neg hclips]
  refine ⟨?_, (timelineSpecShape_counts _).1, (timelineSpecShape_counts _).2, ?_⟩
  · rw [hmain, clips_with_transitions_eq_spec _ h]
  · rw [hmain]
    simp

/-- Witness for `buildTimeline_counts`: one surviving still builds the
one-slide timeline and does not fail with the all-dropped error. -/
theorem buildTimeline_counts_witness :
    buildTimeline [(5 : ℕ)] some = .ok (timelineSpecShape ([(5 : ℕ)].filterMap some)) ∧
    buildTimeline [(5 : ℕ)] some ≠ .error .noValidSlides := by
  have h := buildTimeline_counts [(5 : ℕ)] some (by decide)
  exact ⟨h.1, h.2.2.2⟩

/-- C4: the build fails with the empty-input error exactly when zero
stills are supplied; a still whose per-item processing fails is dropped
and the build continues on the survivors (it succeeds whenever at
least one clip survives, producing the timeline of exactly the
survivors); and when dropping empties the usable set the build fails
with the all-slides-dropped error. -/
theorem buildTimeline_errors {α : Type} [Inhabited α] (images : List α)
    (process : α → Option α) :
    (buildTimeline images process = .error .emptyInput ↔ images = []) ∧
    (images ≠ [] → images.filterMap process = [] →
      buildTimeline images process = .error .noValidSlides) ∧
    (images.filterMap process ≠ [] →
      buildTimeline images process =
        .ok (clips_with_transitions (images.filterMap process))) := by
  by_cases h1 : images = []
  · subst h1
    refine ⟨by simp [buildTimeline], fun h _ => absurd rfl h, fun h => absurd rfl h⟩
  · have himg : ¬ images.isEmpty = true := by simpa [List.isEmpty_iff] using h1
    by_cases h2 : images.filterMap process = []
    · have hval : buildTimeline images process = .error .noValidSlides := by
        simp only [buildTimeline]
        rw [if_neg himg, if_pos (by simpa [List.isEmpty_iff] using h2)]
      refine ⟨?_, fun _ _ => hval, fun hc => absurd h2 hc⟩
      constructor
      · intro hb
        rw [hval] at hb
        simp at hb
      · intro he
        exact absurd he h1
    · have hclips : ¬ (images.filterMap process).isEmpty = true := by
        simpa [List.isEmpty_iff] using h2
      have hval : buildTimeline images process =
          .ok (clips_with_transitions (images.filterMap process)) := by
        simp only [buildTimeline]
        rw [if_neg himg, if_neg hclips]
      refine ⟨?_, fun _ hc => absurd hc h2, fun _ => hval⟩
      constructor
      · intro hb
        rw [hval] at hb
        simp at hb
      · intro he
        exact absurd he h1

/-- Witness for `buildTimeline_errors`: zero stills give the
empty-input error, and one still dropped by processing gives the
all-slides-dropped error. -/
theorem buildTimeline_errors_witness :
    buildTimeline ([] : List ℕ) some = .error .emptyInput ∧
    buildTimeline [(0 : ℕ)] (fun _ => none) = .error .noValidSlides := by
  constructor
  · exact (buildTimeline_errors ([] : List ℕ) some).1.mpr rfl
  · exact (buildTimeline_errors [(0 : ℕ)] (fun _ => none)).2.1 (by simp) (by simp)

/-- Helper: when a template holds no replacement field other than
`slide_number`, formatting succeeds and substitutes every occurrence. -/
theorem formatParts_ok (n : ℕ) :
    ∀ (tmpl : Template), (∀ name, TemplatePart.other name ∉ tmpl) →
      formatParts n tmpl = .ok (substAll n tmpl) := by
  intro tmpl
  induction tmpl with
  | nil => intro _; rfl
  | cons p rest IH =>
    intro h
    have hrest : ∀ name, TemplatePart.other name ∉ rest := by
      intro name hm
      exact h name (List.mem_cons_of_mem _ hm)
    cases p with
    | lit s => simp [formatParts, formatPart, substAll, IH hrest]
    | slideNumber => simp [formatParts, formatPart, substAll, IH hrest]
    | other name => exact absurd (List.mem_cons_self _ _) (h name)

/-- Helper: a template holding some replacement field other than
`slide_number` makes formatting fail (Python KeyError). -/
theorem formatParts_err (n : ℕ) :
    ∀ (tmpl : Template), (∃ name, TemplatePart.other name ∈ tmpl) →
      ∃ e, formatParts n tmpl = .error e := by
  intro tmpl
  induction tmpl with
  | nil => intro ⟨name, hm⟩; exact absurd hm (List.not_mem_nil _)
  | cons p rest IH =>
    intro ⟨name, hm⟩
    cases p with
    | lit s =>
      have hr : TemplatePart.other name ∈ rest := by
        rcases List.mem_cons.mp hm with h | h
        · exact absurd h (by simp)
        · exact h
      obtain ⟨e, he⟩ := IH ⟨name, hr⟩
      exact ⟨e, by simp [formatParts, formatPart, he]⟩
    | slideNumber =>
      have hr : TemplatePart.other name ∈ rest := by
        rcases List.mem_cons.mp hm with h | h
        · exact absurd h (by simp)
        · exact h
      obtain ⟨e, he⟩ := IH ⟨name, hr⟩
      exact ⟨e, by simp [formatParts, formatPart, he]⟩
    | other m => exact ⟨"KeyError: " ++ m, rfl⟩

/-- C8 counterexample: a template with the slide-index placeholder
absent renders its literal text without any MalformedTemplate failure,
and a template with the placeholder duplicated substitutes both
occurrences and also does not fail; in each case the text is drawn
centered, 100 px above the bottom edge, in white with a 2 px black
stroke. -/
theorem overlay_malformed_template_not_rejected :
    renderOverlay (fun _ => 60) 1280 720 [TemplatePart.lit "Hello"] 0 =
      .ok { text := "Hello", x := 610, y := 620, fill := "white",
            strokeWidth := 2, strokeFill := "black" } ∧
    renderOverlay (fun _ => 60) 1280 720
        [TemplatePart.slideNumber, TemplatePart.slideNumber] 0 =
      .ok { text := "11", x := 610, y := 620, fill := "white",
            strokeWidth := 2, strokeFill := "black" } := by
  constructor
  · norm_num [renderOverlay, formatParts, formatPart]
  · norm_num [renderOverlay, formatParts, formatPart]
    rfl

/-- C8 amended: the overlay operation does not reject templates whose
slide-index placeholder is absent or duplicated; it renders every
template containing only literals and `slide_number` fields, with each
occurrence replaced by the 1-based slide index and the text placed
horizontally centered by its measured width, anchored 100 px from the
bottom edge, in white fill with a 2 px black stroke.  Its only failure
is a KeyError for a replacement field other than `slide_number`. -/
theorem overlay_render_spec (textWidth : String → ℚ) (imgW imgH : ℚ)
    (tmpl : Template) (i : ℕ) :
    ((∀ name, TemplatePart.other name ∉ tmpl) →
      renderOverlay textWidth imgW imgH tmpl i =
        .ok { text := substAll (i + 1) tmpl
              x := (imgW - textWidth (substAll (i + 1) tmpl)) / 2
              y := imgH - 100
              fill := "white"
              strokeWidth := 2
              strokeFill := "black" }) ∧
    ((∃ name, TemplatePart.other name ∈ tmpl) →
      ∃ e, renderOverlay textWidth imgW imgH tmpl i = .error e) := by
  constructor
  · intro h
    simp [renderOverlay, formatParts_ok (i + 1) tmpl h]
  · intro h
    obtain ⟨e, he⟩ := formatParts_err (i + 1) tmpl h
    exact ⟨e, by simp [renderOverlay, he]⟩

/-- Witness for `overlay_render_spec`: the well-formed template
"Slide {n}" on the first slide renders "Slide 1" centered with the
fixed anchor and paint. -/
theorem overlay_render_spec_witness :
    renderOverlay (fun _ => 60) 1280 720
        [TemplatePart.lit "Slide ", TemplatePart.slideNumber] 0 =
      .ok { text := "Slide 1", x := 610, y := 620, fill := "white",
            strokeWidth := 2, strokeFill := "black" } := by
  have h := (overlay_render_spec (fun _ => 60) 1280 720
      [TemplatePart.lit "Slide ", TemplatePart.slideNumber] 0).1
    (by intro name hm; simp at hm)
  rw [h]
  norm_num [substAll]
  rfl
